import Mathlib

/-!
Verification development for the charger-insights station-search library.

The definitions below are a shallow embedding of the TypeScript source:
`src/lib/fetcher.ts` (retrying fetch client and URL builder),
`src/lib/geocode.ts` (geocoding client and haversine distance),
`src/lib/nrel.ts` (station directory client: transformStation,
fetchStations, validateSearchParams), `src/types/nrel.ts` (data model)
and `src/hooks/useChargerSearch.ts` (query layer).

JavaScript numbers are modelled as rationals, extended with an explicit
NaN constructor where a claim depends on NaN behaviour; coordinates fed
to the trigonometric distance computation are modelled as real numbers.
Asynchronous I/O is modelled by passing the transport as an explicit
oracle function and returning `Except`, so that "no network call" is
expressed as independence from the oracle.
-/

/-- A JavaScript number that may be NaN.  Ordinary finite values are
modelled as rationals. -/
inductive JSNum where
  | num (q : ℚ)
  | nan
  deriving DecidableEq, Repr

namespace JSNum

/-- JavaScript `<` on numbers: any comparison involving NaN is false. -/
def ltB : JSNum → JSNum → Bool
  | num a, num b => decide (a < b)
  | _, _ => false

/-- JavaScript `>` on numbers: any comparison involving NaN is false. -/
def gtB : JSNum → JSNum → Bool
  | num a, num b => decide (b < a)
  | _, _ => false

end JSNum

/-- JavaScript `toUpperCase()` on the ASCII code strings this library
compares: upper-case every character. -/
def toUpperJS (s : String) : String :=
  ⟨s.data.map Char.toUpper⟩

/-- JavaScript `trim()`: strip whitespace from both ends. -/
def trimJS (s : String) : String :=
  ⟨((s.data.dropWhile Char.isWhitespace).reverse.dropWhile
      Char.isWhitespace).reverse⟩

/-- The value of a run of decimal digit characters. -/
def digitsValue (ds : List Char) : ℕ :=
  ds.foldl (fun acc c => acc * 10 + (c.toNat - '0'.toNat)) 0

/-- Split a leading optional sign off a character list. -/
def splitSign : List Char → Bool × List Char
  | '-' :: rest => (true, rest)
  | '+' :: rest => (false, rest)
  | t => (false, t)

/-- JavaScript `parseInt(s, 10)`: skip leading whitespace, read an
optional sign and then the maximal leading run of decimal digits;
`none` models the NaN result when no digit is found. -/
def parseIntJS (s : String) : Option ℤ :=
  let t := s.data.dropWhile Char.isWhitespace
  let st := splitSign t
  let digits := st.2.takeWhile Char.isDigit
  if digits = [] then none
  else
    let v : ℤ := digitsValue digits
    some (if st.1 then -v else v)

/-- JavaScript `parseFloat(s)` restricted to plain decimal notation
(optional sign, integer part, optional fractional part); `none` models
NaN.  Exponent notation is not exercised by any claim and not modelled. -/
def parseFloatJS (s : String) : Option ℚ :=
  let t := s.data.dropWhile Char.isWhitespace
  let st := splitSign t
  let intPart := st.2.takeWhile Char.isDigit
  let rest := st.2.drop intPart.length
  let fracPart :=
    match rest with
    | '.' :: rest2 => rest2.takeWhile Char.isDigit
    | _ => []
  if intPart = [] ∧ fracPart = [] then none
  else
    let iv : ℚ := digitsValue intPart
    let fv : ℚ := digitsValue fracPart
    let den : ℚ := (10 : ℚ) ^ fracPart.length
    let v := iv + fv / den
    some (if st.1 then -v else v)

/-! ## Resilient fetch client (`src/lib/fetcher.ts`) -/

/-- An HTTP response as observed by `fetchWithRetry`: status code and
status text. -/
structure FetchResponse where
  status : ℕ
  statusText : String
  deriving DecidableEq, Repr

/-- The `Response.ok` flag of the fetch API: status in [200, 300). -/
def FetchResponse.ok (r : FetchResponse) : Bool :=
  decide (200 ≤ r.status) && decide (r.status < 300)

/-- A `FetchError`: an `Error` optionally carrying an HTTP status and
the request URL (`src/lib/fetcher.ts`). -/
structure FetchError where
  message : String
  status : Option ℕ := none
  url : Option String := none
  deriving DecidableEq, Repr

/-- The error built by `fetchWithRetry` for a non-ok HTTP response:
message `HTTP <status>: <statusText>` carrying status and URL. -/
def httpError (r : FetchResponse) (url : String) : FetchError :=
  { message := "HTTP " ++ toString r.status ++ ": " ++ r.statusText
    status := some r.status
    url := some url }

/-- isRetryableError from `src/lib/fetcher.ts`: a 4xx status is not
retryable; everything else (network errors without a status, 5xx) is. -/
def isRetryableError (e : FetchError) : Bool :=
  match e.status with
  | some s => if 400 ≤ s ∧ s < 500 then false else true
  | none => true

/-- One loop iteration of `fetchWithRetry`: invoke the transport for
attempt `i`; a resolved response that is not ok becomes an HTTP error. -/
def fetchStep (transport : ℕ → Except FetchError FetchResponse)
    (url : String) (i : ℕ) : Except FetchError FetchResponse :=
  match transport i with
  | .error e => .error e
  | .ok r => if r.ok then .ok r else .error (httpError r url)

/-- The retry loop of `fetchWithRetry`, instrumented with the number of
transport calls made.  `remaining` is the number of attempts still
allowed after the current one; the loop breaks (re-raising the last
error) when attempts are exhausted or the error is not retryable. -/
def fetchWithRetryGo (transport : ℕ → Except FetchError FetchResponse)
    (url : String) (i remaining : ℕ) :
    Except FetchError FetchResponse × ℕ :=
  match fetchStep transport url i with
  | .ok r => (.ok r, 1)
  | .error e =>
    match remaining with
    | 0 => (.error e, 1)
    | n + 1 =>
      if isRetryableError e then
        let next := fetchWithRetryGo transport url (i + 1) n
        (next.1, next.2 + 1)
      else (.error e, 1)

/-- fetchWithRetry from `src/lib/fetcher.ts`: up to `retries` additional
attempts after the first.  Backoff delays are real-time behaviour and
not modelled. -/
def fetchWithRetry (transport : ℕ → Except FetchError FetchResponse)
    (url : String) (retries : ℕ) : Except FetchError FetchResponse :=
  (fetchWithRetryGo transport url 0 retries).1

/-- The number of transport calls `fetchWithRetry` makes. -/
def fetchWithRetryCalls (transport : ℕ → Except FetchError FetchResponse)
    (url : String) (retries : ℕ) : ℕ :=
  (fetchWithRetryGo transport url 0 retries).2

/-! ## URL builder (`createUrl` in `src/lib/fetcher.ts`)

A URL's query string is modelled as the ordered list of its key/value
pairs; `URLSearchParams.set` and `URLSearchParams.append` are modelled
with WHATWG semantics. -/

/-- A JavaScript value passed to `createUrl` as a parameter value. -/
inductive JSVal where
  | undef
  | null
  | str (s : String)
  | num (n : ℤ)
  | arr (elems : List String)
  deriving DecidableEq, Repr

/-- JavaScript `String(value)` for the values `createUrl` stringifies. -/
def JSVal.toJSString : JSVal → String
  | .undef => "undefined"
  | .null => "null"
  | .str s => s
  | .num n => toString n
  | .arr xs => String.intercalate "," xs

/-- Remove every pair with the given key (helper for `set`). -/
def removeKey : List (String × String) → String → List (String × String)
  | [], _ => []
  | (a, b) :: rest, k =>
    if a = k then removeKey rest k else (a, b) :: removeKey rest k

/-- URLSearchParams.set: replace the first pair with the key and drop
the rest; append at the end when the key is absent. -/
def setParam : List (String × String) → String → String → List (String × String)
  | [], k, v => [(k, v)]
  | (a, b) :: rest, k, v =>
    if a = k then (k, v) :: removeKey rest k else (a, b) :: setParam rest k v

/-- URLSearchParams.append: add the pair at the end. -/
def appendParam (q : List (String × String)) (k v : String) :
    List (String × String) :=
  q ++ [(k, v)]

/-- URLSearchParams.getAll: the values stored under a key, in order. -/
def getAll (q : List (String × String)) (k : String) : List String :=
  q.filterMap (fun p => if p.1 = k then some p.2 else none)

/-- createUrl from `src/lib/fetcher.ts`, acting on the query-pair list
of the base URL: entries whose value is undefined, null or the empty
string are omitted; arrays append one pair per element; any other value
is set as a single pair in string form. -/
def createUrl (base : List (String × String))
    (params : List (String × JSVal)) : List (String × String) :=
  params.foldl
    (fun u kv =>
      if kv.2 ≠ JSVal.undef ∧ kv.2 ≠ JSVal.null ∧ kv.2 ≠ JSVal.str "" then
        match kv.2 with
        | .arr xs => xs.foldl (fun u' e => appendParam u' kv.1 e) u
        | v => setParam u kv.1 (JSVal.toJSString v)
      else u)
    base

/-! ## Distance/geodesy utility

calculateDistance appears identically in `NRELService` (src/lib/nrel.ts)
and `GeocodingService` (src/lib/geocode.ts); it is modelled once over
the real numbers, the exact idealization of the floating-point code. -/

/-- toRadians from src/lib/nrel.ts and src/lib/geocode.ts. -/
noncomputable def toRadians (degrees : ℝ) : ℝ :=
  degrees * (Real.pi / 180)

/-- JavaScript `Math.atan2(y, x)` on real arguments (signed zero and
NaN, which are floating-point artifacts, are not modelled). -/
noncomputable def atan2 (y x : ℝ) : ℝ :=
  if 0 < x then Real.arctan (y / x)
  else if x < 0 then
    (if 0 ≤ y then Real.arctan (y / x) + Real.pi
     else Real.arctan (y / x) - Real.pi)
  else
    (if 0 < y then Real.pi / 2 else if y < 0 then -(Real.pi / 2) else 0)

/-- calculateDistance: haversine distance in miles with Earth radius
3959, exactly as in src/lib/nrel.ts lines 136-146 and
src/lib/geocode.ts. -/
noncomputable def calculateDistance (lat1 lon1 lat2 lon2 : ℝ) : ℝ :=
  let R : ℝ := 3959
  let dLat := toRadians (lat2 - lat1)
  let dLon := toRadians (lon2 - lon1)
  let a :=
    Real.sin (dLat / 2) * Real.sin (dLat / 2) +
      Real.cos (toRadians lat1) * Real.cos (toRadians lat2) *
        Real.sin (dLon / 2) * Real.sin (dLon / 2)
  let c := 2 * atan2 (Real.sqrt a) (Real.sqrt (1 - a))
  R * c

/-! ## Station directory data model (`src/types/nrel.ts`) -/

/-- A provider station record after tolerant schema validation
(NRELStationSchema).  Only the fields read by `transformStation` are
modelled; `Option` covers both `null` and an absent field (the mapping
treats them identically), and a string-or-number union is a sum type. -/
structure NRELStation where
  id : ℤ
  station_name : String
  fuel_type_code : String
  status_code : Option String := none
  ev_network : Option String := none
  ev_connector_types : Option (List String) := none
  latitude : ℝ
  longitude : ℝ
  street_address : String
  city : String
  state : String
  zip : String
  access_days_time : Option String := none
  access_code : Option String := none
  access_detail_code : Option String := none
  ev_level1_evse_num : Option (String ⊕ ℚ) := none
  ev_level2_evse_num : Option (String ⊕ ℚ) := none
  ev_dc_fast_num : Option (String ⊕ ℚ) := none
  ev_other_evse : Option String := none
  ev_network_web : Option String := none
  ev_pricing : Option String := none
  station_phone : Option String := none

/-- A validated provider response (NRELResponseSchema). -/
structure NRELResponse where
  fuel_stations : List NRELStation
  total_results : ℤ

/-- The internal availability status of a station. -/
inductive Status where
  | available
  | unavailable
  | unknown
  deriving DecidableEq, Repr

/-- The internal EVSE count record.  A count can be NaN when the source
string fails to parse, so the value type is `JSNum`. -/
structure EvseCounts where
  level1 : Option JSNum := none
  level2 : Option JSNum := none
  dcFast : Option JSNum := none
  other : Option JSNum := none
  deriving DecidableEq, Repr

/-- The internal Station model (`src/types/nrel.ts`).  Coordinates and
distance are real-valued because distance is trigonometric. -/
structure Station where
  id : ℤ
  name : String
  fuelType : String
  status : Status
  network : Option String
  connectorTypes : List String
  location : ℝ × ℝ
  addressStreet : String
  addressCity : String
  addressState : String
  addressZip : String
  addressFull : String
  accessDaysTime : Option String
  accessCode : Option String
  accessDetailCode : Option String
  pricing : Option String
  phone : Option String
  website : Option String
  distance : Option ℝ
  evseCounts : EvseCounts

/-- The EVSE-count branch of `transformStation` for a string-or-number
field: a JavaScript truthiness guard (`null`/`undefined`, `""` and the
number `0` are falsy), then `parseInt` for strings. -/
def parseEvseCount : Option (String ⊕ ℚ) → Option JSNum
  | none => none
  | some (.inl s) =>
    if s = "" then none
    else
      match parseIntJS s with
      | some n => some (.num n)
      | none => some .nan
  | some (.inr q) => if q = 0 then none else some (.num q)

/-- The EVSE-count branch for `ev_other_evse` (string-typed): truthy
strings are parsed, anything else is left undefined. -/
def parseOtherEvse : Option String → Option JSNum
  | none => none
  | some s =>
    if s = "" then none
    else
      match parseIntJS s with
      | some n => some (.num n)
      | none => some .nan

/-- The status derivation of `transformStation`: a truthy status code is
upper-cased and matched against E/A (available) and P/T (unavailable);
everything else, including an absent or empty code, is unknown. -/
def deriveStatus : Option String → Status
  | none => .unknown
  | some c =>
    if c = "" then .unknown
    else
      let u := toUpperJS c
      if u = "E" ∨ u = "A" then .available
      else if u = "P" ∨ u = "T" then .unavailable
      else .unknown

/-- transformStation from src/lib/nrel.ts lines 54-131: maps a
validated provider record to the internal Station model, computing the
distance from the search location when one is supplied. -/
noncomputable def transformStation (s : NRELStation)
    (searchLocation : Option (ℝ × ℝ)) : Station :=
  let distance : Option ℝ :=
    match searchLocation with
    | some l => some (calculateDistance l.1 l.2 s.latitude s.longitude)
    | none => none
  { id := s.id
    name := s.station_name
    fuelType := s.fuel_type_code
    status := deriveStatus s.status_code
    network := s.ev_network
    connectorTypes := s.ev_connector_types.getD []
    location := (s.latitude, s.longitude)
    addressStreet := s.street_address
    addressCity := s.city
    addressState := s.state
    addressZip := s.zip
    addressFull :=
      s.street_address ++ ", " ++ s.city ++ ", " ++ s.state ++ " " ++ s.zip
    accessDaysTime := s.access_days_time
    accessCode := s.access_code
    accessDetailCode := s.access_detail_code
    pricing := s.ev_pricing
    phone := s.station_phone
    website := s.ev_network_web
    distance := distance
    evseCounts :=
      { level1 := parseEvseCount s.ev_level1_evse_num
        level2 := parseEvseCount s.ev_level2_evse_num
        dcFast := parseEvseCount s.ev_dc_fast_num
        other := parseOtherEvse s.ev_other_evse } }

/-- The sort comparator of `fetchStations`: ascending by distance with
an undefined distance treated as positive infinity (the `?? Infinity`
fallback); comparator ties, including two undefined distances, keep the
original order because the sort is stable. -/
noncomputable def distLeB (a b : Station) : Bool :=
  match a.distance, b.distance with
  | _, none => true
  | none, some _ => false
  | some x, some y => decide (x ≤ y)

/-- The `stations` local of fetchStations: every provider record mapped
through `transformStation` with the search origin, in provider order. -/
noncomputable def mappedStations (resp : NRELResponse) (loc : ℝ × ℝ) :
    List Station :=
  resp.fuel_stations.map (fun s => transformStation s (some loc))

/-- The response-processing part of fetchStations (src/lib/nrel.ts lines
158-189) after a successfully validated payload: map every provider
record through `transformStation` with the search origin, then sort by
distance only when some mapped station has a defined distance. -/
noncomputable def fetchStationsPure (resp : NRELResponse)
    (loc : ℝ × ℝ) : List Station :=
  let stations := mappedStations resp loc
  if stations.any (fun s => s.distance.isSome) then
    stations.mergeSort distLeB
  else stations

/-! ## Search parameters and their validation (`src/lib/nrel.ts`) -/

/-- A search location: JavaScript numbers, possibly NaN. -/
structure JSCoord where
  lat : JSNum
  lng : JSNum
  deriving DecidableEq, Repr

/-- SearchParams from `src/types/nrel.ts`. -/
structure SearchParams where
  location : JSCoord
  radius : JSNum
  fuelTypes : List String
  limit : Option JSNum := none
  offset : Option JSNum := none
  deriving DecidableEq, Repr

/-- The messages validateSearchParams can emit, in source order. -/
def validationMessages : List String :=
  ["Valid location with latitude and longitude is required",
   "Latitude must be between -90 and 90",
   "Longitude must be between -180 and 180",
   "Radius must be between 0 and 500 miles",
   "Fuel types must be an array"]

/-- JavaScript `typeof v === 'number'` for a `JSNum`: always true, in
particular for NaN. -/
def jsTypeofNumber (_ : JSNum) : Bool := true

/-- JavaScript `Array.isArray` for a value of array type: always true. -/
def jsIsArray (_ : List String) : Bool := true

/-- validateSearchParams from src/lib/nrel.ts lines 208-232.  The
location-presence and array-shape guards are expressed with the literal
runtime checks, which never fire on the typed model; the range checks
use JavaScript comparison semantics, under which NaN compares false. -/
def validateSearchParams (p : SearchParams) : List String :=
  let errors : List String := []
  let errors :=
    if ¬ (jsTypeofNumber p.location.lat && jsTypeofNumber p.location.lng) then
      errors ++ [validationMessages[0]!]
    else errors
  let errors :=
    if p.location.lat.ltB (.num (-90)) || p.location.lat.gtB (.num 90) then
      errors ++ [validationMessages[1]!]
    else errors
  let errors :=
    if p.location.lng.ltB (.num (-180)) || p.location.lng.gtB (.num 180) then
      errors ++ [validationMessages[2]!]
    else errors
  let errors :=
    if p.radius.ltB (.num 0) || p.radius.gtB (.num 500) then
      errors ++ [validationMessages[3]!]
    else errors
  let errors :=
    if ¬ jsIsArray p.fuelTypes then
      errors ++ [validationMessages[4]!]
    else errors
  errors

/-- The real-valued view of a search location taken by the station
pipeline; NaN is mapped to 0 (no claim evaluates a distance at NaN). -/
noncomputable def JSNum.toReal : JSNum → ℝ
  | .num q => (q : ℝ)
  | .nan => 0

/-- The search origin handed by fetchStations to transformStation. -/
noncomputable def searchOrigin (p : SearchParams) : ℝ × ℝ :=
  (p.location.lat.toReal, p.location.lng.toReal)

/-- fetchStations from src/lib/nrel.ts, given the validated response of
its network request: it transforms and sorts without ever consulting
validateSearchParams. -/
noncomputable def fetchStations (p : SearchParams) (resp : NRELResponse) :
    List Station :=
  fetchStationsPure resp (searchOrigin p)

/-! ## Search query layer (`useChargerSearch` in
`src/hooks/useChargerSearch.ts`)

The query function is modelled with the underlying fetch as an explicit
oracle, so that "no network call is made" is provable as independence
from the oracle. -/

/-- The queryFn of useChargerSearch: missing params raise; then
validateSearchParams is consulted and any messages are joined into a
single aggregate error before the fetch oracle is ever invoked. -/
def useChargerSearchQueryFn (params : Option SearchParams)
    (fetchOracle : SearchParams → Except String (List Station)) :
    Except String (List Station) :=
  match params with
  | none => .error "Search parameters are required"
  | some p =>
    let errors := validateSearchParams p
    if errors.length > 0 then
      .error ("Invalid search parameters: " ++ String.intercalate ", " errors)
    else fetchOracle p

/-! ## Geocoding client (`src/lib/geocode.ts`) -/

/-- A forward-geocoding candidate: the provider returns string-typed
coordinates. -/
structure GeoResult where
  lat : String
  lon : String
  deriving DecidableEq, Repr

/-- The no-results message of geocodeAddress. -/
def noResultsMessage (q : String) : String :=
  "No results found for \"" ++ q ++ "\""

/-- The wrapping applied by the catch block of geocodeAddress. -/
def geocodingFailed (m : String) : String :=
  "Geocoding failed: " ++ m

/-- geocodeAddress from src/lib/geocode.ts: the empty-query guard runs
before the try block (its error is not wrapped); every failure inside
the try block is re-raised with the `Geocoding failed: ` prefix.  The
network is an oracle from the request query pairs to the parsed JSON
body, so the result of a guarded-out call is independent of it. -/
def geocodeAddress (base : List (String × String))
    (fetchOracle : List (String × String) → Except String (List GeoResult))
    (query : String) : Except String (ℚ × ℚ) :=
  if trimJS query = "" then .error "Query cannot be empty"
  else
    let url := createUrl base
      [("q", .str query), ("format", .str "json"),
       ("limit", .num 1), ("addressdetails", .num 1)]
    match fetchOracle url with
    | .error m => .error (geocodingFailed m)
    | .ok results =>
      match results with
      | [] => .error (geocodingFailed (noResultsMessage query))
      | r :: _ =>
        match parseFloatJS r.lat, parseFloatJS r.lon with
        | some la, some lo => .ok (la, lo)
        | _, _ =>
          .error (geocodingFailed
            "Invalid coordinates returned from geocoding service")

/-! ## Concrete sample inputs

Sample values used to evaluate the theorems below at concrete inputs. -/

/-- A validated provider record with an energized status code, a
string-typed level-2 EVSE count and a null connector list. -/
def stationE : NRELStation :=
  { id := 1
    station_name := "Sample Station"
    fuel_type_code := "ELEC"
    status_code := some "E"
    ev_level2_evse_num := some (Sum.inl "4")
    ev_connector_types := none
    latitude := 40
    longitude := -105
    street_address := "1 Main St"
    city := "Denver"
    state := "CO"
    zip := "80202" }

/-- The same record with an unrecognized status code. -/
def stationZ : NRELStation :=
  { stationE with status_code := some "Z", ev_level2_evse_num := none }

/-- The same record with no status code and numeric EVSE counts of 0. -/
def stationZero : NRELStation :=
  { stationE with
    status_code := none
    ev_level1_evse_num := some (Sum.inr 0)
    ev_level2_evse_num := some (Sum.inr 0)
    ev_dc_fast_num := some (Sum.inr 0) }

/-- Search parameters whose radius is out of range. -/
def paramsBadRadius : SearchParams :=
  { location := { lat := JSNum.num 40, lng := JSNum.num (-74) }
    radius := JSNum.num 600
    fuelTypes := [] }

/-- A provider response holding a single station. -/
def respOne : NRELResponse :=
  { fuel_stations := [stationE], total_results := 1 }

/-- An empty provider response. -/
def respEmpty : NRELResponse :=
  { fuel_stations := [], total_results := 0 }

/-! ## Claim theorems -/

/-- C1: for every validated provider record, transformStation maps a
status_code of "E" to available, parses the string EVSE count "4" to
the integer 4, maps a null connector list to the empty list (never
null), and maps an absent or unrecognized status code to unknown. -/
theorem transformStation_mapping (s : NRELStation) (loc : Option (ℝ × ℝ)) :
    (s.status_code = some "E" →
      (transformStation s loc).status = Status.available)
    ∧ (s.ev_level2_evse_num = some (Sum.inl "4") →
      (transformStation s loc).evseCounts.level2 = some (JSNum.num 4))
    ∧ (s.ev_connector_types = none →
      (transformStation s loc).connectorTypes = [])
    ∧ (s.status_code = none →
      (transformStation s loc).status = Status.unknown)
    ∧ (∀ c, s.status_code = some c →
      toUpperJS c ≠ "E" → toUpperJS c ≠ "A" →
      toUpperJS c ≠ "P" → toUpperJS c ≠ "T" →
      (transformStation s loc).status = Status.unknown) := by
  have hst : (transformStation s loc).status = deriveStatus s.status_code := rfl
  have hev : (transformStation s loc).evseCounts.level2 =
      parseEvseCount s.ev_level2_evse_num := rfl
  have hct : (transformStation s loc).connectorTypes =
      s.ev_connector_types.getD [] := rfl
  refine ⟨fun h => ?_, fun h => ?_, fun h => ?_, fun h => ?_,
    fun c h hE hA hP hT => ?_⟩
  · rw [hst, h]; decide
  · rw [hev, h]; decide
  · rw [hct, h]; rfl
  · rw [hst, h]; rfl
  · rw [hst, h]
    by_cases h0 : c = ""
    · simp [deriveStatus, h0]
    · simp [deriveStatus, h0, hE, hA, hP, hT]

/-- Witness for transformStation_mapping at concrete records. -/
theorem transformStation_mapping_witness :
    (transformStation stationE none).status = Status.available
    ∧ (transformStation stationE none).evseCounts.level2 =
        some (JSNum.num 4)
    ∧ (transformStation stationE none).connectorTypes = []
    ∧ (transformStation stationZero none).status = Status.unknown
    ∧ (transformStation stationZ none).status = Status.unknown :=
  ⟨(transformStation_mapping stationE none).1 rfl,
   (transformStation_mapping stationE none).2.1 rfl,
   (transformStation_mapping stationE none).2.2.1 rfl,
   (transformStation_mapping stationZero none).2.2.2.1 rfl,
   (transformStation_mapping stationZ none).2.2.2.2 "Z" rfl
     (by decide) (by decide) (by decide) (by decide)⟩

/-- C9: for every provider record whose numeric EVSE count field is the
number 0, the mapped evseCounts entry is absent rather than 0, because
the truthiness guard treats 0 as falsy. -/
theorem transformStation_drops_zero_counts (s : NRELStation)
    (loc : Option (ℝ × ℝ)) :
    (s.ev_level1_evse_num = some (Sum.inr 0) →
      (transformStation s loc).evseCounts.level1 = none)
    ∧ (s.ev_level2_evse_num = some (Sum.inr 0) →
      (transformStation s loc).evseCounts.level2 = none)
    ∧ (s.ev_dc_fast_num = some (Sum.inr 0) →
      (transformStation s loc).evseCounts.dcFast = none) := by
  have h1 : (transformStation s loc).evseCounts.level1 =
      parseEvseCount s.ev_level1_evse_num := rfl
  have h2 : (transformStation s loc).evseCounts.level2 =
      parseEvseCount s.ev_level2_evse_num := rfl
  have h3 : (transformStation s loc).evseCounts.dcFast =
      parseEvseCount s.ev_dc_fast_num := rfl
  exact ⟨fun h => by rw [h1, h]; rfl,
         fun h => by rw [h2, h]; rfl,
         fun h => by rw [h3, h]; rfl⟩

/-- Witness for transformStation_drops_zero_counts at a concrete record
whose three numeric counts are all 0. -/
theorem transformStation_drops_zero_counts_witness :
    (transformStation stationZero none).evseCounts.level1 = none
    ∧ (transformStation stationZero none).evseCounts.level2 = none
    ∧ (transformStation stationZero none).evseCounts.dcFast = none :=
  ⟨(transformStation_drops_zero_counts stationZero none).1 rfl,
   (transformStation_drops_zero_counts stationZero none).2.1 rfl,
   (transformStation_drops_zero_counts stationZero none).2.2 rfl⟩

/-- C10 counterexample: the claim "for every SearchParams whose lat, lng,
or radius is NaN, validateSearchParams returns an empty list" fails: at
lat = NaN, lng = 200, radius = 10 the longitude range check still fires,
so the returned list is non-empty. -/
theorem validateSearchParams_nan_or_cex :
    (SearchParams.location
        { location := { lat := JSNum.nan, lng := JSNum.num 200 },
          radius := JSNum.num 10, fuelTypes := [] }).lat = JSNum.nan
    ∧ validateSearchParams
        { location := { lat := JSNum.nan, lng := JSNum.num 200 },
          radius := JSNum.num 10, fuelTypes := [] } ≠ [] := by
  constructor
  · rfl
  · decide

/-- C10 (amended): for every SearchParams whose lat, lng and radius are
all NaN (with fuelTypes an array), validateSearchParams returns the
empty list: NaN passes the typeof-number check and every range
comparison is false on NaN, so non-finite coordinates and radius are
reported as valid. -/
theorem validateSearchParams_nan_valid (p : SearchParams)
    (hlat : p.location.lat = JSNum.nan)
    (hlng : p.location.lng = JSNum.nan)
    (hrad : p.radius = JSNum.nan) :
    validateSearchParams p = [] := by
  simp [validateSearchParams, hlat, hlng, hrad, jsTypeofNumber, jsIsArray,
    JSNum.ltB, JSNum.gtB]

/-- Witness for validateSearchParams_nan_valid at a concrete all-NaN
parameter value. -/
theorem validateSearchParams_nan_valid_witness :
    validateSearchParams
      { location := { lat := JSNum.nan, lng := JSNum.nan },
        radius := JSNum.nan, fuelTypes := ["ELEC"] } = [] :=
  validateSearchParams_nan_valid
    { location := { lat := JSNum.nan, lng := JSNum.nan },
      radius := JSNum.nan, fuelTypes := ["ELEC"] } rfl rfl rfl

/-- C7: for every query whose trimmed form is empty, geocodeAddress
fails with the empty-query error, and the outcome is independent of the
network oracle, hence no network call is observable. -/
theorem geocodeAddress_empty_query (base : List (String × String))
    (f g : List (String × String) → Except String (List GeoResult))
    (q : String) (h : trimJS q = "") :
    geocodeAddress base f q = .error "Query cannot be empty"
    ∧ geocodeAddress base f q = geocodeAddress base g q := by
  constructor <;> simp [geocodeAddress, h]

/-- Witness for geocodeAddress_empty_query at the empty query, with two
oracles that disagree everywhere. -/
theorem geocodeAddress_empty_query_witness :
    geocodeAddress [] (fun _ => .ok []) "" =
      .error "Query cannot be empty"
    ∧ geocodeAddress [] (fun _ => .ok []) "" =
      geocodeAddress [] (fun _ => .error "network down") "" :=
  geocodeAddress_empty_query [] (fun _ => .ok [])
    (fun _ => .error "network down") "" (by decide)

/-- Prefixing two strings with the same string preserves inequality of
the suffixes. -/
theorem append_ne_append_of_ne (p : String) {a b : String} (h : a ≠ b) :
    p ++ a ≠ p ++ b := by
  intro heq
  apply h
  have h2 := congrArg String.data heq
  simp at h2
  cases a; cases b
  exact congrArg String.mk h2

/-- C8: for every non-empty query, a provider result of zero matches
makes geocodeAddress fail with the no-results error; a lower-level
fetch failure is instead wrapped with its own message, and the two
error values are distinguishable whenever the underlying messages
differ; the no-results error also differs from the empty-query error. -/
theorem geocodeAddress_no_results_distinguishable
    (base : List (String × String))
    (f : List (String × String) → Except String (List GeoResult))
    (q m : String) (hq : trimJS q ≠ "") :
    (f (createUrl base
        [("q", .str q), ("format", .str "json"),
         ("limit", .num 1), ("addressdetails", .num 1)]) = .ok [] →
      geocodeAddress base f q = .error (geocodingFailed (noResultsMessage q)))
    ∧ (f (createUrl base
        [("q", .str q), ("format", .str "json"),
         ("limit", .num 1), ("addressdetails", .num 1)]) = .error m →
      geocodeAddress base f q = .error (geocodingFailed m))
    ∧ (m ≠ noResultsMessage q →
      geocodingFailed (noResultsMessage q) ≠ geocodingFailed m)
    ∧ geocodingFailed (noResultsMessage q) ≠ "Query cannot be empty" := by
  refine ⟨fun h => ?_, fun h => ?_, fun hne => ?_, ?_⟩
  · simp [geocodeAddress, hq, h]
  · simp [geocodeAddress, hq, h]
  · exact append_ne_append_of_ne "Geocoding failed: " (Ne.symm hne) ∘ id
  · intro h
    have h2 := congrArg String.data h
    simp [geocodingFailed] at h2

/-- Witness for geocodeAddress_no_results_distinguishable at a concrete
query against a provider returning zero matches. -/
theorem geocodeAddress_no_results_witness :
    geocodeAddress [] (fun _ => .ok []) "denver" =
      .error (geocodingFailed (noResultsMessage "denver"))
    ∧ geocodingFailed (noResultsMessage "denver") ≠ geocodingFailed "boom"
    ∧ geocodingFailed (noResultsMessage "denver") ≠ "Query cannot be empty" :=
  have h := geocodeAddress_no_results_distinguishable [] (fun _ => .ok [])
    "denver" "boom" (by decide)
  ⟨h.1 rfl, h.2.2.1 (by decide), h.2.2.2⟩

/-- C4: whenever validateSearchParams reports at least one message, the
query layer fails with the single aggregate invalid-parameters error and
its outcome is independent of the fetch oracle (no network call);
fetchStations itself never consults validateSearchParams (its output
depends only on the search origin and the response); and
validateSearchParams is total, always returning a (possibly empty) list
drawn from its fixed message vocabulary. -/
theorem useChargerSearch_validates_before_fetch (p : SearchParams)
    (f g : SearchParams → Except String (List Station))
    (h : validateSearchParams p ≠ []) :
    (useChargerSearchQueryFn (some p) f =
      .error ("Invalid search parameters: " ++
        String.intercalate ", " (validateSearchParams p)))
    ∧ useChargerSearchQueryFn (some p) f = useChargerSearchQueryFn (some p) g
    ∧ (∀ p2 resp, searchOrigin p2 = searchOrigin p →
        fetchStations p2 resp = fetchStations p resp)
    ∧ (∀ m ∈ validateSearchParams p, m ∈ validationMessages) := by
  have hl : (validateSearchParams p).length > 0 := List.length_pos.mpr h
  refine ⟨?_, ?_, fun p2 resp h2 => ?_, ?_⟩
  · simp [useChargerSearchQueryFn, hl]
  · simp [useChargerSearchQueryFn, hl]
  · unfold fetchStations
    rw [h2]
  · intro m hm
    unfold validateSearchParams at hm
    split_ifs at hm <;> simp_all [validationMessages] <;> tauto

/-- Witness for useChargerSearch_validates_before_fetch at concrete
invalid parameters (radius 600), with two oracles that disagree. -/
theorem useChargerSearch_validates_before_fetch_witness :
    useChargerSearchQueryFn (some paramsBadRadius) (fun _ => .ok []) =
      .error ("Invalid search parameters: " ++
        String.intercalate ", " (validateSearchParams paramsBadRadius))
    ∧ useChargerSearchQueryFn (some paramsBadRadius) (fun _ => .ok []) =
      useChargerSearchQueryFn (some paramsBadRadius)
        (fun _ => .error "offline")
    ∧ "Radius must be between 0 and 500 miles" ∈ validationMessages :=
  have h := useChargerSearch_validates_before_fetch paramsBadRadius
    (fun _ => .ok []) (fun _ => .error "offline") (by decide)
  ⟨h.1, h.2.1,
   h.2.2.2 "Radius must be between 0 and 500 miles" (by decide)⟩

/-- getAll on a cons cell. -/
theorem getAll_cons (a b k : String) (rest : List (String × String)) :
    getAll ((a, b) :: rest) k =
      if a = k then b :: getAll rest k else getAll rest k := by
  by_cases h : a = k <;> simp [getAll, h]

/-- Removing a key removes all of its values. -/
theorem getAll_removeKey_self (q : List (String × String)) (k : String) :
    getAll (removeKey q k) k = [] := by
  induction q with
  | nil => rfl
  | cons p rest ih =>
    obtain ⟨a, b⟩ := p
    by_cases h : a = k <;> simp [removeKey, h, getAll_cons, ih]

/-- Removing one key leaves every other key untouched. -/
theorem getAll_removeKey_ne (q : List (String × String)) (k k2 : String)
    (h : k2 ≠ k) : getAll (removeKey q k) k2 = getAll q k2 := by
  induction q with
  | nil => rfl
  | cons p rest ih =>
    obtain ⟨a, b⟩ := p
    by_cases ha : a = k
    · subst ha
      simp [removeKey, getAll_cons, Ne.symm h, ih]
    · simp [removeKey, ha, getAll_cons, ih]

/-- After set, the key holds exactly the one value. -/
theorem getAll_setParam_self (q : List (String × String)) (k v : String) :
    getAll (setParam q k v) k = [v] := by
  induction q with
  | nil => simp [setParam, getAll]
  | cons p rest ih =>
    obtain ⟨a, b⟩ := p
    by_cases h : a = k
    · simp [setParam, h, getAll_cons, getAll_removeKey_self]
    · simp [setParam, h, getAll_cons, ih]

/-- set leaves every other key untouched. -/
theorem getAll_setParam_ne (q : List (String × String)) (k k2 v : String)
    (h : k2 ≠ k) : getAll (setParam q k v) k2 = getAll q k2 := by
  induction q with
  | nil => simp [setParam, getAll_cons, getAll, Ne.symm h]
  | cons p rest ih =>
    obtain ⟨a, b⟩ := p
    by_cases ha : a = k
    · subst ha
      simp [setParam, getAll_cons, Ne.symm h, getAll_removeKey_ne rest a k2 h]
    · simp [setParam, ha, getAll_cons, ih]

/-- getAll distributes over list append. -/
theorem getAll_append (q1 q2 : List (String × String)) (k : String) :
    getAll (q1 ++ q2) k = getAll q1 k ++ getAll q2 k := by
  simp [getAll]

/-- Appending all elements of a list under one key appends exactly that
list to the key's values. -/
theorem getAll_appendFold_self (xs : List String)
    (q : List (String × String)) (k : String) :
    getAll (xs.foldl (fun u e => appendParam u k e) q) k =
      getAll q k ++ xs := by
  induction xs generalizing q with
  | nil => simp
  | cons x rest ih =>
    rw [List.foldl_cons, ih]
    simp [appendParam, getAll_append, getAll]

/-- Appending under one key leaves every other key untouched. -/
theorem getAll_appendFold_ne (xs : List String)
    (q : List (String × String)) (k k2 : String) (h : k2 ≠ k) :
    getAll (xs.foldl (fun u e => appendParam u k e) q) k2 =
      getAll q k2 := by
  induction xs generalizing q with
  | nil => simp
  | cons x rest ih =>
    rw [List.foldl_cons, ih]
    simp [appendParam, getAll_append, getAll, Ne.symm h]

/-- createUrl leaves every key it is not given untouched. -/
theorem getAll_createUrl_untouched (params : List (String × JSVal))
    (base : List (String × String)) (k : String)
    (h : ∀ v, (k, v) ∉ params) :
    getAll (createUrl base params) k = getAll base k := by
  induction params generalizing base with
  | nil => rfl
  | cons kv rest ih =>
    obtain ⟨k1, v⟩ := kv
    have hk : k ≠ k1 := by
      intro he
      exact h v (by simp [he])
    have hrest : ∀ w, (k, w) ∉ rest := by
      intro w hw
      exact h w (List.mem_cons_of_mem _ hw)
    simp only [createUrl, List.foldl_cons]
    rw [show ∀ b2, List.foldl _ b2 rest = createUrl b2 rest from fun b2 => rfl]
    by_cases hc : v ≠ JSVal.undef ∧ v ≠ JSVal.null ∧ v ≠ JSVal.str ""
    · simp only [if_pos hc]
      cases v with
      | arr xs =>
        rw [ih _ hrest, getAll_appendFold_ne xs base k1 k hk]
      | undef => exact absurd rfl hc.1
      | null => exact absurd rfl hc.2.1
      | str s => rw [ih _ hrest, getAll_setParam_ne base k1 k _ hk]
      | num n => rw [ih _ hrest, getAll_setParam_ne base k1 k _ hk]
    · simp only [if_neg hc]
      exact ih base hrest

/-- C5: createUrl omits every entry whose value is null, undefined or
the empty string; an array value appends one query parameter per element
under the same key in element order; a scalar value sets a single query
parameter with the value's string form; and query parameters already
encoded in the base URL are preserved for every key createUrl does not
touch, so every parameter set is retrievable from the resulting query
string. -/
theorem createUrl_spec (base : List (String × String)) (k : String) :
    (∀ rest, createUrl base ((k, JSVal.null) :: rest) = createUrl base rest
      ∧ createUrl base ((k, JSVal.undef) :: rest) = createUrl base rest
      ∧ createUrl base ((k, JSVal.str "") :: rest) = createUrl base rest)
    ∧ (∀ xs, getAll (createUrl base [(k, JSVal.arr xs)]) k =
        getAll base k ++ xs)
    ∧ (∀ v, v ≠ JSVal.undef → v ≠ JSVal.null → v ≠ JSVal.str "" →
        (∀ xs, v ≠ JSVal.arr xs) →
        getAll (createUrl base [(k, v)]) k = [v.toJSString])
    ∧ (∀ params, (∀ v, (k, v) ∉ params) →
        getAll (createUrl base params) k = getAll base k) := by
  refine ⟨fun rest => ⟨?_, ?_, ?_⟩, fun xs => ?_,
    fun v h1 h2 h3 h4 => ?_,
    fun params hp => getAll_createUrl_untouched params base k hp⟩
  · simp [createUrl]
  · simp [createUrl]
  · simp [createUrl]
  · simp only [createUrl, List.foldl_cons, List.foldl_nil]
    norm_num
    exact getAll_appendFold_self xs base k
  · cases v with
    | undef => exact absurd rfl h1
    | null => exact absurd rfl h2
    | arr xs => exact absurd rfl (h4 xs)
    | str s =>
      have hs : JSVal.str s ≠ JSVal.str "" := h3
      simp only [createUrl, List.foldl_cons, List.foldl_nil]
      simp [hs, getAll_setParam_self, JSVal.toJSString]
    | num n =>
      simp only [createUrl, List.foldl_cons, List.foldl_nil]
      simp [getAll_setParam_self, JSVal.toJSString]

/-- Witness for createUrl_spec at concrete inputs: omitted values, an
array value, a scalar value, and preservation of a base parameter. -/
theorem createUrl_spec_witness :
    createUrl [("a", "1")] [("k", JSVal.null)] = createUrl [("a", "1")] []
    ∧ createUrl [("a", "1")] [("k", JSVal.undef)] = createUrl [("a", "1")] []
    ∧ createUrl [("a", "1")] [("k", JSVal.str "")] = createUrl [("a", "1")] []
    ∧ getAll (createUrl [("a", "1")] [("k", JSVal.arr ["x", "y"])]) "k" =
        getAll [("a", "1")] "k" ++ ["x", "y"]
    ∧ getAll (createUrl [("a", "1")] [("k", JSVal.str "value")]) "k" =
        ["value"]
    ∧ getAll (createUrl [("a", "1")] [("new", JSVal.str "param")]) "a" =
        getAll [("a", "1")] "a" :=
  have h1 := (createUrl_spec [("a", "1")] "k").1 []
  have h4 := (createUrl_spec [("a", "1")] "k").2.2.1 (JSVal.str "value")
    (by decide) (by decide) (by decide) (fun _ h => JSVal.noConfusion h)
  have h5 := (createUrl_spec [("a", "1")] "a").2.2.2
    [("new", JSVal.str "param")]
    (by intro v hv; simp at hv)
  ⟨h1.1, h1.2.1, h1.2.2,
   (createUrl_spec [("a", "1")] "k").2.1 ["x", "y"], h4, h5⟩

/-- A successful attempt makes the retry loop return at once with one
transport call. -/
theorem fetchWithRetryGo_ok (t : ℕ → Except FetchError FetchResponse)
    (url : String) (i rem : ℕ) (r : FetchResponse)
    (h : fetchStep t url i = .ok r) :
    fetchWithRetryGo t url i rem = (.ok r, 1) := by
  rw [fetchWithRetryGo.eq_def, h]

/-- A non-retryable failure makes the retry loop raise at once with one
transport call. -/
theorem fetchWithRetryGo_stop (t : ℕ → Except FetchError FetchResponse)
    (url : String) (i rem : ℕ) (e : FetchError)
    (h : fetchStep t url i = .error e) (hnr : isRetryableError e = false) :
    fetchWithRetryGo t url i rem = (.error e, 1) := by
  rw [fetchWithRetryGo.eq_def, h]
  cases rem with
  | zero => rfl
  | succ n => simp [hnr]

/-- A retryable failure with attempts remaining recurses, adding one
transport call. -/
theorem fetchWithRetryGo_retry (t : ℕ → Except FetchError FetchResponse)
    (url : String) (i n : ℕ) (e : FetchError)
    (h : fetchStep t url i = .error e) (hr : isRetryableError e = true) :
    fetchWithRetryGo t url i (n + 1) =
      ((fetchWithRetryGo t url (i + 1) n).1,
       (fetchWithRetryGo t url (i + 1) n).2 + 1) := by
  rw [fetchWithRetryGo.eq_def, h]
  simp [hr]

/-- If the first k attempts fail retryably and attempt k succeeds within
the budget, the loop returns that success after exactly k + 1 calls. -/
theorem fetchWithRetryGo_success (k : ℕ) :
    ∀ (t : ℕ → Except FetchError FetchResponse) (url : String)
      (i rem : ℕ) (r : FetchResponse), k ≤ rem →
    (∀ j, j < k → ∃ e, fetchStep t url (i + j) = .error e ∧
      isRetryableError e = true) →
    fetchStep t url (i + k) = .ok r →
    fetchWithRetryGo t url i rem = (.ok r, k + 1) := by
  induction k with
  | zero =>
    intro t url i rem r _ _ hok
    rw [Nat.add_zero] at hok
    exact fetchWithRetryGo_ok t url i rem r hok
  | succ k ih =>
    intro t url i rem r hle hfail hok
    obtain ⟨e, he, hre⟩ := hfail 0 (Nat.succ_pos k)
    rw [Nat.add_zero] at he
    obtain ⟨n, rfl⟩ : ∃ n, rem = n + 1 := ⟨rem - 1, by omega⟩
    rw [fetchWithRetryGo_retry t url i n e he hre]
    have hfail2 : ∀ j, j < k → ∃ e2, fetchStep t url (i + 1 + j) = .error e2
        ∧ isRetryableError e2 = true := by
      intro j hj
      have hs := hfail (j + 1) (by omega)
      rwa [show i + (j + 1) = i + 1 + j by omega] at hs
    have hok2 : fetchStep t url (i + 1 + k) = .ok r := by
      rwa [show i + 1 + k = i + (k + 1) by omega]
    rw [ih t url (i + 1) n r (by omega) hfail2 hok2]

/-- If every attempt in the budget fails retryably except that the last
one fails arbitrarily, the loop raises the last error after exactly
rem + 1 calls. -/
theorem fetchWithRetryGo_exhaust (rem : ℕ) :
    ∀ (t : ℕ → Except FetchError FetchResponse) (url : String)
      (i : ℕ) (e : FetchError),
    (∀ j, j < rem → ∃ e2, fetchStep t url (i + j) = .error e2 ∧
      isRetryableError e2 = true) →
    fetchStep t url (i + rem) = .error e →
    fetchWithRetryGo t url i rem = (.error e, rem + 1) := by
  induction rem with
  | zero =>
    intro t url i e _ herr
    rw [Nat.add_zero] at herr
    rw [fetchWithRetryGo.eq_def, herr]
  | succ n ih =>
    intro t url i e hfail herr
    obtain ⟨e0, he0, hre0⟩ := hfail 0 (Nat.succ_pos n)
    rw [Nat.add_zero] at he0
    rw [fetchWithRetryGo_retry t url i n e0 he0 hre0]
    have hfail2 : ∀ j, j < n → ∃ e2, fetchStep t url (i + 1 + j) = .error e2
        ∧ isRetryableError e2 = true := by
      intro j hj
      have hs := hfail (j + 1) (by omega)
      rwa [show i + (j + 1) = i + 1 + j by omega] at hs
    have herr2 : fetchStep t url (i + 1 + n) = .error e := by
      rwa [show i + 1 + n = i + (n + 1) by omega]
    rw [ih t url (i + 1) e hfail2 herr2]

/-- C3: for every request, fetchWithRetry raises immediately after
exactly one transport call when the first attempt resolves with an HTTP
status in [400, 500); it retries any retryable failure (network error or
non-ok response outside [400, 500)) up to `retries` additional attempts,
returning the first success with exactly one call per attempt made; and
on exhaustion it raises the last error after exactly retries + 1 calls. -/
theorem fetchWithRetry_classification
    (t : ℕ → Except FetchError FetchResponse) (url : String)
    (retries : ℕ) :
    (∀ r, t 0 = .ok r → 400 ≤ r.status → r.status < 500 →
      fetchWithRetry t url retries = .error (httpError r url)
      ∧ fetchWithRetryCalls t url retries = 1)
    ∧ (∀ k r, k ≤ retries →
      (∀ j, j < k → ∃ e, fetchStep t url j = .error e ∧
        isRetryableError e = true) →
      fetchStep t url k = .ok r →
      fetchWithRetry t url retries = .ok r
      ∧ fetchWithRetryCalls t url retries = k + 1)
    ∧ (∀ e, (∀ j, j < retries → ∃ e2, fetchStep t url j = .error e2 ∧
        isRetryableError e2 = true) →
      fetchStep t url retries = .error e →
      fetchWithRetry t url retries = .error e
      ∧ fetchWithRetryCalls t url retries = retries + 1) := by
  refine ⟨fun r h h4 h5 => ?_, fun k r hk hfail hok => ?_,
    fun e hfail herr => ?_⟩
  · have hnok : r.ok = false := by
      simp only [FetchResponse.ok, Bool.and_eq_false_iff, decide_eq_false_iff_not]
      omega
    have hstep : fetchStep t url 0 = .error (httpError r url) := by
      simp [fetchStep, h, hnok]
    have hnr : isRetryableError (httpError r url) = false := by
      simp only [isRetryableError, httpError]
      rw [if_pos ⟨h4, h5⟩]
    have hgo := fetchWithRetryGo_stop t url 0 retries _ hstep hnr
    exact ⟨by simp [fetchWithRetry, hgo], by simp [fetchWithRetryCalls, hgo]⟩
  · have hfail0 : ∀ j, j < k → ∃ e, fetchStep t url (0 + j) = .error e ∧
        isRetryableError e = true := by simpa using hfail
    have hok0 : fetchStep t url (0 + k) = .ok r := by simpa using hok
    have hgo := fetchWithRetryGo_success k t url 0 retries r hk hfail0 hok0
    exact ⟨by simp [fetchWithRetry, hgo], by simp [fetchWithRetryCalls, hgo]⟩
  · have hfail0 : ∀ j, j < retries → ∃ e2, fetchStep t url (0 + j) = .error e2
        ∧ isRetryableError e2 = true := by simpa using hfail
    have herr0 : fetchStep t url (0 + retries) = .error e := by simpa using herr
    have hgo := fetchWithRetryGo_exhaust retries t url 0 e hfail0 herr0
    exact ⟨by simp [fetchWithRetry, hgo], by simp [fetchWithRetryCalls, hgo]⟩

/-- Witness for fetchWithRetry_classification: a transport that fails
twice then succeeds, with retries = 2, succeeds after exactly 3 calls;
a 400 response fails after exactly 1 call. -/
theorem fetchWithRetry_classification_witness :
    fetchWithRetry
      (fun i => if i < 2 then .error { message := "Network error" }
        else .ok { status := 200, statusText := "OK" }) "u" 2 =
      .ok { status := 200, statusText := "OK" }
    ∧ fetchWithRetryCalls
      (fun i => if i < 2 then .error { message := "Network error" }
        else .ok { status := 200, statusText := "OK" }) "u" 2 = 3
    ∧ fetchWithRetry
      (fun _ => .ok { status := 400, statusText := "Bad Request" }) "u" 2 =
      .error (httpError { status := 400, statusText := "Bad Request" } "u")
    ∧ fetchWithRetryCalls
      (fun _ => .ok { status := 400, statusText := "Bad Request" }) "u" 2
      = 1 := by
  have hA := (fetchWithRetry_classification
    (fun i => if i < 2 then .error { message := "Network error" }
      else .ok { status := 200, statusText := "OK" }) "u" 2).2.1
    2 { status := 200, statusText := "OK" } (by omega)
    (fun j hj => by
      interval_cases j <;>
        exact ⟨{ message := "Network error" }, rfl, rfl⟩)
    rfl
  have hB := (fetchWithRetry_classification
    (fun _ => .ok { status := 400, statusText := "Bad Request" }) "u" 2).1
    { status := 400, statusText := "Bad Request" } rfl (by decide) (by decide)
  exact ⟨hA.1, hA.2, hB.1, hB.2⟩

/-- The sort key of a station: its distance with undefined mapped to
positive infinity. -/
noncomputable def distKey (s : Station) : WithTop ℝ :=
  match s.distance with
  | some d => (d : WithTop ℝ)
  | none => ⊤

/-- The comparator agrees with comparison of sort keys. -/
theorem distLeB_eq_key (a b : Station) :
    distLeB a b = decide (distKey a ≤ distKey b) := by
  unfold distLeB distKey
  cases a.distance <;> cases b.distance <;> simp

/-- The comparator is transitive. -/
theorem distLeB_trans (a b c : Station) (hab : distLeB a b = true)
    (hbc : distLeB b c = true) : distLeB a c = true := by
  rw [distLeB_eq_key] at hab hbc ⊢
  exact decide_eq_true
    (le_trans (of_decide_eq_true hab) (of_decide_eq_true hbc))

/-- The comparator is total. -/
theorem distLeB_total (a b : Station) :
    (distLeB a b || distLeB b a) = true := by
  rw [distLeB_eq_key, distLeB_eq_key]
  rcases le_total (distKey a) (distKey b) with h | h <;> simp [h]

/-- C2: the station list returned by fetchStations is sorted ascending
by distance (undefined distances ordered last, treated as positive
infinity) whenever at least one mapped station has a defined distance;
when no mapped station has a defined distance, provider order is
preserved unchanged; and the result is always a permutation of the
mapped list. -/
theorem fetchStations_sorted_by_distance (resp : NRELResponse)
    (loc : ℝ × ℝ) :
    ((mappedStations resp loc).any (fun s => s.distance.isSome) = true →
      (fetchStationsPure resp loc).Pairwise
        (fun a b => distLeB a b = true))
    ∧ ((mappedStations resp loc).any (fun s => s.distance.isSome) = false →
      fetchStationsPure resp loc = mappedStations resp loc)
    ∧ (fetchStationsPure resp loc).Perm (mappedStations resp loc) := by
  refine ⟨fun h => ?_, fun h => ?_, ?_⟩
  · simp only [fetchStationsPure]
    rw [if_pos h]
    exact List.sorted_mergeSort distLeB_trans distLeB_total _
  · simp only [fetchStationsPure]
    rw [if_neg (by simp [h])]
  · simp only [fetchStationsPure]
    split_ifs
    · exact List.mergeSort_perm _ _
    · exact List.Perm.refl _

/-- Witness for fetchStations_sorted_by_distance: a one-station response
with a search origin lands in the sorted branch; an empty response lands
in the order-preserving branch. -/
theorem fetchStations_sorted_witness :
    (fetchStationsPure respOne (0, 0)).Pairwise
      (fun a b => distLeB a b = true)
    ∧ fetchStationsPure respEmpty (0, 0) =
      mappedStations respEmpty (0, 0) :=
  ⟨(fetchStations_sorted_by_distance respOne (0, 0)).1 rfl,
   (fetchStations_sorted_by_distance respEmpty (0, 0)).2.1 rfl⟩

/-- C6: the haversine distance (Earth radius 3959 miles) is zero between
identical coordinates and symmetric in its two coordinate arguments, for
all real coordinates. -/
theorem calculateDistance_zero_and_symm (lat1 lon1 lat2 lon2 : ℝ) :
    calculateDistance lat1 lon1 lat1 lon1 = 0
    ∧ calculateDistance lat1 lon1 lat2 lon2 =
      calculateDistance lat2 lon2 lat1 lon1 := by
  constructor
  · simp only [calculateDistance, toRadians]
    norm_num [atan2, Real.arctan_zero]
  · have h1 : toRadians (lat1 - lat2) = -toRadians (lat2 - lat1) := by
      unfold toRadians; ring
    have h2 : toRadians (lon1 - lon2) = -toRadians (lon2 - lon1) := by
      unfold toRadians; ring
    have ha :
        Real.sin (toRadians (lat1 - lat2) / 2) *
            Real.sin (toRadians (lat1 - lat2) / 2) +
          Real.cos (toRadians lat2) * Real.cos (toRadians lat1) *
            Real.sin (toRadians (lon1 - lon2) / 2) *
            Real.sin (toRadians (lon1 - lon2) / 2)
        = Real.sin (toRadians (lat2 - lat1) / 2) *
            Real.sin (toRadians (lat2 - lat1) / 2) +
          Real.cos (toRadians lat1) * Real.cos (toRadians lat2) *
            Real.sin (toRadians (lon2 - lon1) / 2) *
            Real.sin (toRadians (lon2 - lon1) / 2) := by
      rw [h1, h2]
      simp only [neg_div, Real.sin_neg]
      ring
    simp only [calculateDistance]
    rw [ha]
